import Mathlib

set_option maxRecDepth 4096

/-!
Shallow embedding of the core of the `tive` terminal chat client
(`src/message.rs`, `src/chat.rs`, `src/client.rs`, `src/host.rs`,
`src/main.rs`), together with theorems settling the specification
claims about it.

Conventions of the embedding:
* Rust `Option<T>` becomes `Option T`; `Result` becomes `Except`.
* Byte strings are modelled as `List Char` (all inputs of interest are
  ASCII); `String` stays `String`.
* Shared mutable state (`Arc<Mutex<ChatThreadInner>>` plus the shared
  `AtomicBool` update flag) becomes an explicit `ChatState` value that
  is threaded through the operations; the Rust methods that mutate
  `self` return the updated value of `self` alongside their result.
* `BaseMessage::default` reads the wall clock for `created_at`; the
  embedding takes that timestamp as an explicit `now : String`
  parameter.
-/

/-! ## message.rs -/

/-- Model of `BaseMessage` (src/message.rs). `id : u32` carries no
arithmetic in the embedded code, so it is modelled as `Nat`. -/
structure BaseMessage where
  id : Nat
  createdAt : String
  content : String
  chatId : String
  messageId : String
deriving DecidableEq

/-- Model of `impl Default for BaseMessage`; `now` is the
`Utc::now()` timestamp rendered by the source. -/
def BaseMessage.mkDefault (now : String) : BaseMessage :=
  { id := 0, createdAt := now, content := "", chatId := "", messageId := "" }

/-- Model of `serde_json::Value` used by `ToolCall.args`
(src/message.rs); also the value type of the modelled JSON parser. -/
inductive Json where
  | null : Json
  | bool (b : Bool) : Json
  | num (n : Int) : Json
  | str (s : String) : Json
  | arr (elems : List Json) : Json
  | obj (fields : List (String × Json)) : Json

/-- Model of `ToolCall` (src/message.rs). -/
structure MsgToolCall where
  name : String
  id : String
  args : Json

/-- Model of `AIMessage` (src/message.rs). -/
structure AIMessage where
  body : BaseMessage
  toolCalls : List MsgToolCall
  files : List String

/-- Model of `UserMessage` (src/message.rs). -/
structure UserMessage where
  body : BaseMessage

/-- Model of `ToolCallResult` (src/message.rs). -/
structure ToolCallResult where
  body : BaseMessage

/-- Model of the `Message` enum (src/message.rs). -/
inductive Message where
  | aiMessage (msg : AIMessage) : Message
  | userMessage (msg : UserMessage) : Message
  | toolCallResult (msg : ToolCallResult) : Message

/-- Model of `TryFrom<Message> for AIMessage`: `Ok` on the
`AIMessage` variant, error otherwise (errors become `none`, matching
the `.ok()` at the call sites in `flush`). -/
def Message.tryIntoAI : Message → Option AIMessage
  | .aiMessage msg => some msg
  | _ => none

/-- Model of `TryFrom<Message> for UserMessage`. -/
def Message.tryIntoUser : Message → Option UserMessage
  | .userMessage msg => some msg
  | _ => none

/-- Model of `MessageFrame` (src/message.rs). -/
structure MessageFrame where
  ai : AIMessage
  user : UserMessage

/-- Model of `MessageFrame::default()` (derived `Default`); both sides
are default messages with empty tool-call and file lists. -/
def MessageFrame.mkDefault (now : String) : MessageFrame :=
  { ai := { body := BaseMessage.mkDefault now, toolCalls := [], files := [] },
    user := { body := BaseMessage.mkDefault now } }

/-! ## chat.rs -/

/-- Model of `ChatThreadInner` (src/chat.rs): the shared state behind
the mutex. `Arc<MessageFrame>` sharing is immaterial to the claims, so
frames are stored by value. -/
structure ChatThreadInner where
  id : Option String
  messages : List MessageFrame

/-- The shared state reachable from both halves of a `split()`: the
mutex-guarded `ChatThreadInner` plus the shared `AtomicBool` update
flag. The embedding is sequential, so atomic orderings collapse to
plain reads and writes. -/
structure ChatState where
  thread : ChatThreadInner
  updateFlag : Bool

/-- The writer-private fields of `ChatWriter` (src/chat.rs); the
`thread` and `update_flag` handles are represented by threading a
`ChatState` through the operations. -/
structure ChatWriter where
  userMessage : Option BaseMessage
  aiMessage : Option BaseMessage
  threadId : Option String

/-- The reader-private fields of `ChatReader` (src/chat.rs): its cached
copy of the history. -/
structure ChatReader where
  messages : List MessageFrame

/-- State produced by `ChatThread::default().split()`: empty history,
update flag initially `false`. -/
def ChatState.initial : ChatState :=
  { thread := { id := none, messages := [] }, updateFlag := false }

/-- Writer half produced by `split()`: all scratch fields `None`. -/
def ChatWriter.initial : ChatWriter :=
  { userMessage := none, aiMessage := none, threadId := none }

/-- Reader half produced by `split()`: empty private cache. -/
def ChatReader.initial : ChatReader :=
  { messages := [] }

/-- Model of `ChatWriter::flush` (src/chat.rs lines 85-110). Returns
the updated writer, the updated shared state, and the `Ok` payload.
Mirrors the source step by step: store `thread_id.take()` into the
thread, `take()` both scratch messages through the `Message`
round-trip conversions, and append a frame (setting the update flag)
only when both conversions produced a value. -/
def ChatWriter.flush (w : ChatWriter) (s : ChatState) (now : String) :
    ChatWriter × ChatState × MessageFrame :=
  let thread1 : ChatThreadInner := { s.thread with id := w.threadId }
  let w' : ChatWriter := { userMessage := none, aiMessage := none, threadId := none }
  let userMessage : Option UserMessage :=
    (w.userMessage.map (fun msg => Message.userMessage { body := msg })).bind
      Message.tryIntoUser
  let aiMessage : Option AIMessage :=
    (w.aiMessage.map (fun msg =>
      Message.aiMessage { body := msg, toolCalls := [], files := [] })).bind
      Message.tryIntoAI
  match userMessage, aiMessage with
  | some u, some a =>
    let frame : MessageFrame := { ai := a, user := u }
    (w',
     { thread := { thread1 with messages := thread1.messages ++ [frame] },
       updateFlag := true },
     frame)
  | some _, none =>
    (w', { thread := thread1, updateFlag := s.updateFlag }, MessageFrame.mkDefault now)
  | none, _ =>
    (w', { thread := thread1, updateFlag := s.updateFlag }, MessageFrame.mkDefault now)

/-- Model of `ChatReader::read` (src/chat.rs lines 122-133). When the
shared update flag is set, clear it and replace the private cache with
a copy of the shared history; otherwise leave everything untouched.
Returns the updated reader, the updated shared state, and the slice
the borrow `&self.messages` denotes. -/
def ChatReader.read (r : ChatReader) (s : ChatState) :
    ChatReader × ChatState × List MessageFrame :=
  if s.updateFlag then
    let r' : ChatReader := { messages := s.thread.messages }
    (r', { s with updateFlag := false }, r'.messages)
  else
    (r, s, r.messages)

/-- The writer scratch state at the moment a `flush` call commits: the
user scratch, the AI scratch, and the pending thread id (set between
flushes through the public fields / `mut_*` accessors). -/
structure FlushInput where
  userMessage : Option BaseMessage
  aiMessage : Option BaseMessage
  threadId : Option String

/-- Whether a flush input has both sides present at commit time. -/
def FlushInput.bothPresent (i : FlushInput) : Bool :=
  i.userMessage.isSome && i.aiMessage.isSome

/-- Run a sequence of `flush()` calls starting from the given writer
and shared state: before each call the scratch fields are set to that
call's `FlushInput` (modelling the accumulation phase), then `flush`
runs. -/
def runFlushes (now : String) :
    List FlushInput → ChatWriter × ChatState → ChatWriter × ChatState
  | [], acc => acc
  | i :: rest, acc =>
    let step :=
      ChatWriter.flush
        { userMessage := i.userMessage, aiMessage := i.aiMessage, threadId := i.threadId }
        acc.2 now
    runFlushes now rest (step.1, step.2.1)

/-- Whether a writer's scratch state has both sides present. -/
def ChatWriter.bothPresent (w : ChatWriter) : Bool :=
  w.userMessage.isSome && w.aiMessage.isSome

/-! ## serde_json model

Modelled from the spec: `serde_json::from_slice` / `from_str` are
dependency code (not part of this repository's sources), used by
`src/client.rs` and `src/host.rs` to parse "one JSON status record"
and the chat wire frames. The model below is a recursive-descent
parser for JSON restricted to what those call sites can meet: numbers
are integer numerals (no fraction/exponent) and `\uXXXX` string
escapes are not modelled. Parsing succeeds only if the whole input is
one JSON value followed by whitespace, as `serde_json` requires. -/

/-- JSON whitespace per RFC 8259, as accepted by `serde_json`. -/
def isJsonWs (c : Char) : Bool := c = ' ' || c = '\t' || c = '\n' || c = '\r'

/-- Drop leading JSON whitespace. -/
def skipWs : List Char → List Char
  | [] => []
  | c :: rest => if isJsonWs c then skipWs rest else c :: rest

/-- Parse the body of a JSON string (after the opening quote), handling
the single-character escapes; returns the decoded characters and the
remaining input after the closing quote. -/
def parseStringBody : List Char → Option (List Char × List Char)
  | [] => none
  | '\\' :: esc :: rest =>
    (match esc with
      | 'b' => some (Char.ofNat 8)
      | 'f' => some (Char.ofNat 12)
      | 'n' => some '\n'
      | 'r' => some '\r'
      | 't' => some '\t'
      | '/' => some '/'
      | '"' => some '"'
      | '\\' => some '\\'
      | _ => none).bind
      (fun c => (parseStringBody rest).map (fun (p : List Char × List Char) => (c :: p.1, p.2)))
  | c :: rest =>
    if c = '"' then some ([], rest)
    else if c.toNat < 32 then none
    else (parseStringBody rest).map (fun (p : List Char × List Char) => (c :: p.1, p.2))

/-- Numeric value of an ASCII digit. -/
def digitVal (c : Char) : Nat := c.toNat - 48

/-- Parse a JSON integer numeral (optional minus, no leading zeros,
fractions and exponents rejected as unmodelled). -/
def parseNumber (cs : List Char) : Option (Int × List Char) :=
  let sp : Bool × List Char :=
    match cs with
    | '-' :: rest => (true, rest)
    | _ => (false, cs)
  let p := sp.2.span Char.isDigit
  match p.1 with
  | [] => none
  | d :: ds =>
    if d = '0' && !ds.isEmpty then none
    else
      match p.2 with
      | '.' :: _ => none
      | 'e' :: _ => none
      | 'E' :: _ => none
      | rest =>
        let n : Int := Int.ofNat ((d :: ds).foldl (fun a c => a * 10 + digitVal c) 0)
        some (if sp.1 then -n else n, rest)

mutual

/-- Parse one JSON value; fuel bounds the recursion depth. -/
def parseValue : Nat → List Char → Option (Json × List Char)
  | 0, _ => none
  | fuel + 1, cs =>
    match skipWs cs with
    | 'n' :: 'u' :: 'l' :: 'l' :: rest => some (.null, rest)
    | 't' :: 'r' :: 'u' :: 'e' :: rest => some (.bool true, rest)
    | 'f' :: 'a' :: 'l' :: 's' :: 'e' :: rest => some (.bool false, rest)
    | '"' :: rest => (parseStringBody rest).map (fun p => (.str (String.mk p.1), p.2))
    | '[' :: rest =>
      (match skipWs rest with
       | ']' :: rest2 => some (.arr [], rest2)
       | _ => (parseElems fuel rest).map (fun p => (.arr p.1, p.2)))
    | '\x7b' :: rest =>
      (match skipWs rest with
       | '\x7d' :: rest2 => some (.obj [], rest2)
       | _ => (parseMembers fuel rest).map (fun p => (.obj p.1, p.2)))
    | other => (parseNumber other).map (fun p => (.num p.1, p.2))
termination_by structural fuel => fuel

/-- Parse the comma-separated elements of a nonempty JSON array, up to
and including the closing bracket. -/
def parseElems : Nat → List Char → Option (List Json × List Char)
  | 0, _ => none
  | fuel + 1, cs =>
    (parseValue fuel cs).bind (fun p =>
      match skipWs p.2 with
      | ',' :: rest => (parseElems fuel rest).map (fun q => (p.1 :: q.1, q.2))
      | ']' :: rest => some ([p.1], rest)
      | _ => none)
termination_by structural fuel => fuel

/-- Parse the members of a nonempty JSON object, up to and including
the closing brace. -/
def parseMembers : Nat → List Char → Option (List (String × Json) × List Char)
  | 0, _ => none
  | fuel + 1, cs =>
    match skipWs cs with
    | '"' :: rest =>
      (parseStringBody rest).bind (fun k =>
        match skipWs k.2 with
        | ':' :: rest2 =>
          (parseValue fuel rest2).bind (fun v =>
            match skipWs v.2 with
            | ',' :: rest3 =>
              (parseMembers fuel rest3).map (fun q => ((String.mk k.1, v.1) :: q.1, q.2))
            | '\x7d' :: rest3 => some ([(String.mk k.1, v.1)], rest3)
            | _ => none)
        | _ => none)
    | _ => none
termination_by structural fuel => fuel

end

/-- Model of `serde_json::from_slice` on a byte slice: the whole input
must be one JSON value plus trailing whitespace. The fuel `2*n+2`
dominates the recursion depth, which consumes at least one character
every two fuel steps. -/
def fromSlice (cs : List Char) : Option Json :=
  match parseValue (2 * cs.length + 2) cs with
  | some (v, rest) => if (skipWs rest).isEmpty then some v else none
  | none => none

/-- Look up a field of a JSON object (first occurrence). -/
def Json.lookupField : Json → String → Option Json
  | .obj fields, name => fields.lookup name
  | _, _ => none

/-- Require a JSON string. -/
def Json.asStr : Json → Option String
  | .str s => some s
  | _ => none

/-- Require a JSON array. -/
def Json.asArr : Json → Option (List Json)
  | .arr elems => some elems
  | _ => none

/-- Require a JSON number in `u16` range, as serde does for
`port : Option<u16>`. -/
def Json.asU16 : Json → Option Nat
  | .num (.ofNat m) => if m < 65536 then some m else none
  | _ => none

/-! ## client.rs -/

/-- Model of `ToolCall` (src/client.rs). -/
structure ToolCall where
  name : String
  arguments : String
deriving DecidableEq

/-- Model of `ToolResult` (src/client.rs). -/
structure ToolResult where
  name : String
  result : String
deriving DecidableEq

/-- Model of `ChatInfo` (src/client.rs); `_title` keeps its wire name
`title`. -/
structure ChatInfo where
  id : String
  title : String
deriving DecidableEq

/-- Model of `MessageInfo` (src/client.rs). -/
structure MessageInfo where
  userMessageId : String
  assistantMessageId : String
deriving DecidableEq

/-- Model of the `ChatResponse` enum (src/client.rs), adjacently
tagged with `type`/`content` on the wire. -/
inductive ChatResponse where
  | text (s : String) : ChatResponse
  | toolCalls (calls : List ToolCall) : ChatResponse
  | toolResult (results : List ToolResult) : ChatResponse
  | chatInfo (info : ChatInfo) : ChatResponse
  | messageInfo (info : MessageInfo) : ChatResponse
deriving DecidableEq

/-- Serde-derive model: decode one `ToolCall` from a JSON value. -/
def decodeToolCall (j : Json) : Option ToolCall :=
  ((j.lookupField "name").bind Json.asStr).bind (fun n =>
    ((j.lookupField "arguments").bind Json.asStr).map
      (fun a => { name := n, arguments := a }))

/-- Serde-derive model: decode one `ToolResult` from a JSON value. -/
def decodeToolResult (j : Json) : Option ToolResult :=
  ((j.lookupField "name").bind Json.asStr).bind (fun n =>
    ((j.lookupField "result").bind Json.asStr).map
      (fun r => { name := n, result := r }))

/-- Serde-derive model: decode a `ChatInfo` from a JSON value. -/
def decodeChatInfo (j : Json) : Option ChatInfo :=
  ((j.lookupField "id").bind Json.asStr).bind (fun i =>
    ((j.lookupField "title").bind Json.asStr).map
      (fun t => { id := i, title := t }))

/-- Serde-derive model: decode a `MessageInfo` from a JSON value,
honouring the `userMessageId`/`assistantMessageId` renames. -/
def decodeMessageInfo (j : Json) : Option MessageInfo :=
  ((j.lookupField "userMessageId").bind Json.asStr).bind (fun u =>
    ((j.lookupField "assistantMessageId").bind Json.asStr).map
      (fun a => { userMessageId := u, assistantMessageId := a }))

/-- Serde-derive model of the adjacently tagged `ChatResponse`
deserializer: dispatch on the `type` field, decode the payload from
the `content` field. -/
def decodeChatResponse (j : Json) : Option ChatResponse :=
  ((j.lookupField "type").bind Json.asStr).bind (fun tag =>
    if tag = "text" then
      ((j.lookupField "content").bind Json.asStr).map ChatResponse.text
    else if tag = "tool_calls" then
      ((j.lookupField "content").bind Json.asArr).bind (fun xs =>
        (xs.mapM decodeToolCall).map ChatResponse.toolCalls)
    else if tag = "tool_result" then
      ((j.lookupField "content").bind Json.asArr).bind (fun xs =>
        (xs.mapM decodeToolResult).map ChatResponse.toolResult)
    else if tag = "chat_info" then
      ((j.lookupField "content").bind decodeChatInfo).map ChatResponse.chatInfo
    else if tag = "message_info" then
      ((j.lookupField "content").bind decodeMessageInfo).map ChatResponse.messageInfo
    else none)

/-- Model of `serde_json::from_slice::<MessageStreamFrame>` applied to
a chunk body: extract the `message` string field. -/
def parseMessageStreamFrame (cs : List Char) : Option String :=
  (fromSlice cs).bind (fun j => (j.lookupField "message").bind Json.asStr)

/-- Model of `serde_json::from_str::<ChatResponse>` applied to the
envelope's `message` string. -/
def parseChatResponse (s : String) : Option ChatResponse :=
  (fromSlice s.data).bind decodeChatResponse

/-- Decode errors of the stream in `ChatClient::chat_stream`: a failed
transport chunk (`item?`), a bad envelope, or a bad inner message. All
of them terminate the `try_stream!` generator after being yielded. -/
inductive DecodeError where
  | transport : DecodeError
  | badFrame : DecodeError
  | badResponse : DecodeError
deriving DecidableEq

/-- The sentinel the decoder compares a chunk body against:
`b"[DONE]\n\n"`. -/
def doneSuffix : List Char := "[DONE]\n\n".data

/-- ASCII lowercasing of one character, as in
`u8::to_ascii_lowercase`. -/
def asciiLowerChar (c : Char) : Char :=
  if 'A' ≤ c && c ≤ 'Z' then Char.ofNat (c.toNat + 32) else c

/-- Model of `eq_ignore_ascii_case` on byte slices. -/
def eqIgnoreAsciiCase (a b : List Char) : Bool :=
  a.map asciiLowerChar == b.map asciiLowerChar

/-- What the loop body of `chat_stream` does with one chunk after the
guards: stop, fail, or yield a response. -/
inductive ChunkStep where
  | stop : ChunkStep
  | fail (e : DecodeError) : ChunkStep
  | yield (r : ChatResponse) : ChunkStep
deriving DecidableEq

/-- Processing of a chunk body (the chunk after `slice(6..)`):
sentinel check, envelope parse, inner message parse. -/
def decodeBody (body : List Char) : ChunkStep :=
  if eqIgnoreAsciiCase body doneSuffix then .stop
  else
    match parseMessageStreamFrame body with
    | none => .fail .badFrame
    | some msg =>
      match parseChatResponse msg with
      | none => .fail .badResponse
      | some r => .yield r

/-- Model of one iteration of the `chat_stream` loop on a successfully
received chunk (src/client.rs lines 94-106): the empty/short guard,
then the body processing. -/
def decodeChunk (item : List Char) : ChunkStep :=
  if item.isEmpty || item.length < 6 then .stop
  else decodeBody (item.drop 6)

/-- Model of the whole `try_stream!` generator of `chat_stream`
(src/client.rs lines 87-108) applied to the sequence of transport
chunks (`.error` marks a failed `bytes_stream` item): the list of
items the resulting `ChatResponseStream` yields, in order. A failed
transport item or a failed parse yields one error and ends the
stream; a terminal chunk or the end of the transport ends it with
nothing further. -/
def decodeStream : List (Except Unit (List Char)) → List (Except DecodeError ChatResponse)
  | [] => []
  | .error _ :: _ => [.error .transport]
  | .ok item :: rest =>
    match decodeChunk item with
    | .stop => []
    | .fail e => [.error e]
    | .yield r => .ok r :: decodeStream rest

/-- A chunk that makes the decoder loop break: empty, shorter than the
6-byte prefix, or body case-insensitively equal to the sentinel. -/
def isTerminalChunk (item : List Char) : Bool :=
  item.isEmpty || item.length < 6 || eqIgnoreAsciiCase (item.drop 6) doneSuffix

/-- A transport item on which the decoder yields a response and keeps
going: successfully received, not terminal, and well-formed. -/
def goodChunk : Except Unit (List Char) → Bool
  | .error _ => false
  | .ok item =>
    match decodeChunk item with
    | .yield _ => true
    | _ => false

/-- The single item a good chunk contributes to the stream. -/
def chunkEvent : Except Unit (List Char) → Option (Except DecodeError ChatResponse)
  | .error _ => none
  | .ok item =>
    match decodeChunk item with
    | .yield r => some (.ok r)
    | _ => none

/-- The body of the first chunk of the spec's decoder example: the
bytes `{"message":"{\"type\":\"text\",\"content\":\"hi\"}"}` followed
by a blank line. -/
def textChunkBody : List Char :=
  "\x7b\"message\":\"\x7b\\\"type\\\":\\\"text\\\",\\\"content\\\":\\\"hi\\\"\x7d\"\x7d\n\n".data

/-! ## host.rs -/

/-- Model of `HostStatus` (src/host.rs). -/
structure HostStatus where
  state : String
  lastError : Option String
  errorCode : Option String
deriving DecidableEq

/-- Model of `HostListen` (src/host.rs); `port : Option<u16>` becomes
an optional `Nat` below `65536`. -/
structure HostListen where
  ip : Option String
  port : Option Nat
deriving DecidableEq

/-- Model of `HostServer` (src/host.rs). -/
structure HostServer where
  listen : Option HostListen
deriving DecidableEq

/-- Model of `HostMessage` (src/host.rs): the JSON status record of
the bus file. -/
structure HostMessage where
  timestamp : String
  status : HostStatus
  server : Option HostServer
deriving DecidableEq

/-- Model of `HostEvent` (src/host.rs): what the watcher forwards on
its channel. -/
inductive HostEvent where
  | busMessage (m : HostMessage) : HostEvent
  | error (s : String) : HostEvent
deriving DecidableEq

/-- Serde model: an `Option<String>` field — absent or `null` is
`none`, a string is `some`, any other value is a deserialization
error. -/
def optStrField (fields : List (String × Json)) (name : String) :
    Option (Option String) :=
  match fields.lookup name with
  | none => some none
  | some .null => some none
  | some (.str s) => some (some s)
  | some _ => none

/-- Serde model: an `Option<u16>` field. -/
def optU16Field (fields : List (String × Json)) (name : String) :
    Option (Option Nat) :=
  match fields.lookup name with
  | none => some none
  | some .null => some none
  | some j => (j.asU16).map some

/-- Serde model: an optional nested struct field. -/
def optNestedField {α : Type} (fields : List (String × Json)) (name : String)
    (dec : Json → Option α) : Option (Option α) :=
  match fields.lookup name with
  | none => some none
  | some .null => some none
  | some j => (dec j).map some

/-- Serde-derive model: decode a `HostStatus` from a JSON value. -/
def decodeHostStatus (j : Json) : Option HostStatus :=
  match j with
  | .obj fields =>
    ((fields.lookup "state").bind Json.asStr).bind (fun st =>
      (optStrField fields "last_error").bind (fun le =>
        (optStrField fields "error_code").map (fun ec =>
          { state := st, lastError := le, errorCode := ec })))
  | _ => none

/-- Serde-derive model: decode a `HostListen` from a JSON value. -/
def decodeHostListen (j : Json) : Option HostListen :=
  match j with
  | .obj fields =>
    (optStrField fields "ip").bind (fun i =>
      (optU16Field fields "port").map (fun pt => { ip := i, port := pt }))
  | _ => none

/-- Serde-derive model: decode a `HostServer` from a JSON value. -/
def decodeHostServer (j : Json) : Option HostServer :=
  match j with
  | .obj fields =>
    (optNestedField fields "listen" decodeHostListen).map (fun l => { listen := l })
  | _ => none

/-- Model of `serde_json::from_slice::<HostMessage>` applied to the
bytes read from the bus file. -/
def parseHostMessage (cs : List Char) : Option HostMessage :=
  (fromSlice cs).bind (fun j =>
    match j with
    | .obj fields =>
      ((fields.lookup "timestamp").bind Json.asStr).bind (fun ts =>
        ((fields.lookup "status").bind decodeHostStatus).bind (fun st =>
          (optNestedField fields "server" decodeHostServer).map (fun sv =>
            { timestamp := ts, status := st, server := sv })))
    | _ => none)

/-- Outcome of `File::open` plus `reader.read` on one inotify event in
`FileWatcher::listen`: the file's current contents when both succeed,
or the failing call. -/
inductive FileReadResult where
  | contents (cs : List Char) : FileReadResult
  | openFailed : FileReadResult
  | readFailed : FileReadResult
deriving DecidableEq

/-- Size of the stack read buffer `buf_file` in `FileWatcher::listen`
(src/host.rs line 229). -/
def busBufSize : Nat := 1024

/-- The bytes the single `reader.read(&mut buf_file)` call delivers
from a file with the given contents: the first `min 1024 n` bytes
(`n` the file size), since `buf_file` is 1024 bytes and `read` is
called once. -/
def busBytesRead (cs : List Char) : List Char := cs.take busBufSize

/-- Model of the body of the `while let` loop of `FileWatcher::listen`
(src/host.rs lines 231-249) for one inotify event: `none` when
nothing is sent on the channel for that event. Directory-level events
are skipped; a failed `File::open` is skipped silently; a failed
`read` sends the error event; contents are parsed only when the read
returned more than zero bytes, and only a successful parse sends a
`BusMessage`. -/
def listenStep (isDir : Bool) (file : FileReadResult) : Option HostEvent :=
  if isDir then none
  else
    match file with
    | .openFailed => none
    | .readFailed => some (.error "Failed to read host message")
    | .contents cs =>
      if (busBytesRead cs).length > 0 then
        match parseHostMessage (busBytesRead cs) with
        | some m => some (.busMessage m)
        | none => none
      else none

/-- Model of the whole listen loop: the sequence of events forwarded
on the channel for a sequence of inotify events, each event paired
with the file state observed when handling it. The loop never exits
on a parse or read failure, so every event in the list is handled. -/
def FileWatcher.listen (events : List (Bool × FileReadResult)) : List HostEvent :=
  events.filterMap (fun e => listenStep e.1 e.2)

/-- File-system model: a map from path to the contents of the files
that exist. -/
def FileSys : Type := String → Option String

/-- Model of `Path::join` for the relative file names used by
`init_host_config`. -/
def pathJoin (dir name : String) : String := dir ++ "/" ++ name

/-- Constant `COMMAND_ALIAS_FILE` (src/host.rs line 24). -/
def COMMAND_ALIAS_FILE : String := "command_alias.json"

/-- Constant `CUSTOM_RULES_FILE` (src/host.rs line 25). -/
def CUSTOM_RULES_FILE : String := "customrules"

/-- Constant `MCP_CONFIG_FILE` (src/host.rs line 26). -/
def MCP_CONFIG_FILE : String := "mcp_config.json"

/-- Constant `MODEL_CONFIG_FILE` (src/host.rs line 27). -/
def MODEL_CONFIG_FILE : String := "model_config.json"

/-- Model of `create_file_if_not_exists` (src/host.rs lines 256-265):
write `content` at `path` only when nothing exists there; an existing
file is left exactly as it is. -/
def create_file_if_not_exists (path content : String) (fs : FileSys) : FileSys :=
  fun p =>
    if p = path then
      match fs path with
      | some existing => some existing
      | none => some content
    else fs p

/-- The literal default contents of `mcp_config.json`. -/
def MCP_CONFIG_CONTENT : String := "\x7b\"mcpServers\":\x7b\x7d\x7d"

/-- The literal default contents of `model_config.json`. -/
def MODEL_CONFIG_CONTENT : String :=
  "\x7b\"activeProvider\":\"fake\",\"enableTools\":true,\"disableDiveSystemPrompt\":false\x7d"

/-- The contents written to `dive_httpd.json`: the `format!` string of
src/host.rs lines 129-145 with the database path spliced in twice,
then `.trim()`ed. -/
def diveHttpdContent (dbPath : String) : String :=
  ("\x7b\n    \"db\": \x7b\n        \"uri\": \"sqlite:///" ++ dbPath ++
   "/dived.sqlite\",\n        \"pool_size\": 5,\n        \"pool_recycle\": 60,\n        \"max_overflow\": 10,\n        \"echo\": false,\n        \"pool_pre_ping\": true,\n        \"migrate\": true\n        \x7d,\n    \"checkpointer\": \x7b\n        \"uri\": \"sqlite:///" ++
   dbPath ++ "/dived.sqlite\"\n    \x7d\n\x7d").trim

/-- Model of `HostProcess::init_host_config` (src/host.rs lines
122-147): create the five default config files, each only if
absent. -/
def init_host_config (configDir dbDir : String) (fs : FileSys) : FileSys :=
  create_file_if_not_exists (pathJoin configDir "dive_httpd.json") (diveHttpdContent dbDir)
    (create_file_if_not_exists (pathJoin configDir MODEL_CONFIG_FILE) MODEL_CONFIG_CONTENT
      (create_file_if_not_exists (pathJoin configDir MCP_CONFIG_FILE) MCP_CONFIG_CONTENT
        (create_file_if_not_exists (pathJoin configDir CUSTOM_RULES_FILE) ""
          (create_file_if_not_exists (pathJoin configDir COMMAND_ALIAS_FILE) "\x7b\x7d" fs))))

/-! ## client.rs readiness probe and the main.rs control flow -/

/-- Model of `ChatClient::wait_for_server` (src/client.rs lines
115-131). `pings` lists the outcomes of the `client.get("ping")`
attempts that complete before the one-second deadline (the spawned
loop retries every 50 ms). The task breaks — and `timeout` returns
`Ok`, which `map_or` maps to `Ok(())` — exactly when one of those
attempts succeeds; if none does, the task is still looping when the
deadline elapses and `map_or` turns the `Elapsed` error into the
`"timeout"` error. -/
def wait_for_server (pings : List Bool) : Except String Unit :=
  if pings.any (fun b => b) then .ok () else .error "timeout"

/-- Model of `UIAction` (src/shared.rs) as consumed by the main loop:
quit, or one chat turn carrying a message. -/
inductive UIAction where
  | quit : UIAction
  | chat (id : Option String) (message : String) : UIAction

/-- The chat requests the main loop issues (src/main.rs lines
71-121): one `chat_stream` call per `UIAction.chat` event until the
loop ends. -/
def mainLoopChats : List UIAction → List String
  | [] => []
  | .quit :: _ => []
  | .chat _ m :: rest => m :: mainLoopChats rest

/-- The chat requests issued in one session (src/main.rs lines
66-121): `client.wait_for_server().await?` runs before the main loop,
so its error propagates out of `main` and the loop — hence any chat
request — is never reached. -/
def sessionChats (pings : List Bool) (actions : List UIAction) :
    Except String (List String) :=
  match wait_for_server pings with
  | .error e => .error e
  | .ok _ => .ok (mainLoopChats actions)

/-- Truncated JSON bus contents: a modification event observed before
the record was completely written. -/
def truncBusContents : List Char := "\x7b\"timestamp\":\"t\",\"status\":".data

/-- A small, complete, valid JSON status record. -/
def validBusContents : List Char :=
  "\x7b\"timestamp\":\"t\",\"status\":\x7b\"state\":\"ok\"\x7d\x7d".data

/-- Bus-file contents longer than the watcher's 1024-byte read
buffer: 2000 bytes. -/
def oversizedBusContents : List Char := List.replicate 2000 'a'

/-- A concrete file system holding one pre-existing, user-modified
config file. -/
def witnessFs : FileSys :=
  fun p => if p = pathJoin "cfg" COMMAND_ALIAS_FILE then some "user-edited" else none

/-! ## Theorems about chat.rs -/

theorem flush_messages_eq (w : ChatWriter) (s : ChatState) (now : String) :
    ((w.flush s now).2.1).thread.messages =
      if w.bothPresent then s.thread.messages ++ [(w.flush s now).2.2]
      else s.thread.messages := by
  cases hu : w.userMessage <;> cases ha : w.aiMessage <;>
    simp [ChatWriter.flush, ChatWriter.bothPresent, hu, ha, Message.tryIntoUser,
      Message.tryIntoAI, Option.map, Option.bind]

theorem flush_flag_eq (w : ChatWriter) (s : ChatState) (now : String) :
    ((w.flush s now).2.1).updateFlag =
      (if w.bothPresent then true else s.updateFlag) := by
  cases hu : w.userMessage <;> cases ha : w.aiMessage <;>
    simp [ChatWriter.flush, ChatWriter.bothPresent, hu, ha, Message.tryIntoUser,
      Message.tryIntoAI, Option.map, Option.bind]

theorem runFlushes_invariant (now : String) (inputs : List FlushInput) :
    ∀ (w : ChatWriter) (s : ChatState),
      ((runFlushes now inputs (w, s)).2).thread.messages.length =
        s.thread.messages.length + (inputs.filter FlushInput.bothPresent).length ∧
      ((runFlushes now inputs (w, s)).2).updateFlag =
        (s.updateFlag || inputs.any FlushInput.bothPresent) := by
  induction inputs with
  | nil => intro w s; simp [runFlushes]
  | cons i rest ih =>
    intro w s
    have hwi : (ChatWriter.bothPresent
        { userMessage := i.userMessage, aiMessage := i.aiMessage, threadId := i.threadId }) =
        FlushInput.bothPresent i := rfl
    simp only [runFlushes]
    obtain ⟨ih1, ih2⟩ := ih
      (ChatWriter.flush
        { userMessage := i.userMessage, aiMessage := i.aiMessage, threadId := i.threadId } s now).1
      ((ChatWriter.flush
        { userMessage := i.userMessage, aiMessage := i.aiMessage, threadId := i.threadId } s now).2.1)
    rw [ih1, ih2, flush_messages_eq, flush_flag_eq, hwi]
    by_cases h : FlushInput.bothPresent i
    · simp [h, List.filter_cons, List.any_cons]
      omega
    · simp [h, List.filter_cons, List.any_cons]

/-- C1: for every sequence of `flush()` calls on a freshly split
`ChatThread`, the length of the history a `ChatReader` observes after
resynchronizing via `read()` equals the number of flush calls at which
both the user scratch message and the AI scratch message were present
at commit time; one-sided and empty flushes append nothing
observable. -/
theorem history_length_after_resync (now : String) (inputs : List FlushInput) :
    ((ChatReader.initial.read
        (runFlushes now inputs (ChatWriter.initial, ChatState.initial)).2).2.2).length
      = (inputs.filter FlushInput.bothPresent).length := by
  obtain ⟨h1, h2⟩ := runFlushes_invariant now inputs ChatWriter.initial ChatState.initial
  by_cases h : ((runFlushes now inputs (ChatWriter.initial, ChatState.initial)).2).updateFlag
  · simp only [ChatReader.read, h, if_true]
    simpa [ChatState.initial] using h1
  · simp only [ChatReader.read, h]
    rw [h2] at h
    simp only [ChatState.initial, Bool.false_or] at h
    have hnone : ∀ x ∈ inputs, ¬ FlushInput.bothPresent x := by
      simpa [List.any_eq_true] using h
    simp [ChatReader.initial, List.filter_eq_nil_iff.mpr hnone]

/-- C8: calling `read()` twice with no intervening `flush()` returns
identical contents both times; the second call leaves the reader's
cached buffer and the shared state untouched. -/
theorem read_idempotent (r : ChatReader) (s : ChatState) :
    (((r.read s).1.read (r.read s).2.1).2.2 = (r.read s).2.2) ∧
    (((r.read s).1.read (r.read s).2.1).1 = (r.read s).1) ∧
    (((r.read s).1.read (r.read s).2.1).2.1 = (r.read s).2.1) := by
  by_cases h : s.updateFlag <;> simp [ChatReader.read, h]

/-- C9: the shared history is append-only and monotonic: a `flush()`
leaves the previous history as a prefix of the new one (appending at
most one frame), and a `read()` does not change the shared history at
all. -/
theorem history_append_only (w : ChatWriter) (r : ChatReader) (s : ChatState) (now : String) :
    (∃ t, s.thread.messages ++ t = ((w.flush s now).2.1).thread.messages) ∧
    ((r.read s).2.1).thread.messages = s.thread.messages := by
  constructor
  · rw [flush_messages_eq]
    by_cases h : w.bothPresent
    · exact ⟨[(w.flush s now).2.2], by simp [h]⟩
    · exact ⟨[], by simp [h]⟩
  · by_cases h : s.updateFlag <;> simp [ChatReader.read, h]

/-- C10: a `flush()` at which at most one scratch side is present
returns `Ok` with a default `MessageFrame`, appends nothing to the
shared history, does not change the readers' update flag (so readers
are not signaled for that flush), and still clears both scratch
messages and the pending thread identifier. -/
theorem flush_one_sided (w : ChatWriter) (s : ChatState) (now : String)
    (h : w.bothPresent = false) :
    ((w.flush s now).2.2 = MessageFrame.mkDefault now) ∧
    (((w.flush s now).2.1).thread.messages = s.thread.messages) ∧
    (((w.flush s now).2.1).updateFlag = s.updateFlag) ∧
    ((w.flush s now).1.userMessage = none) ∧
    ((w.flush s now).1.aiMessage = none) ∧
    ((w.flush s now).1.threadId = none) := by
  cases hu : w.userMessage <;> cases ha : w.aiMessage <;>
    simp_all [ChatWriter.flush, ChatWriter.bothPresent, Message.tryIntoUser,
      Message.tryIntoAI]

theorem flush_one_sided_witness :
    (ChatWriter.bothPresent
      { userMessage := some (BaseMessage.mkDefault "t0"), aiMessage := none,
        threadId := some "th" } = false) ∧
    ((ChatWriter.flush
        { userMessage := some (BaseMessage.mkDefault "t0"), aiMessage := none,
          threadId := some "th" }
        { thread := { id := some "old", messages := [MessageFrame.mkDefault "t0"] },
          updateFlag := false } "now").2.2 = MessageFrame.mkDefault "now") ∧
    (((ChatWriter.flush
        { userMessage := some (BaseMessage.mkDefault "t0"), aiMessage := none,
          threadId := some "th" }
        { thread := { id := some "old", messages := [MessageFrame.mkDefault "t0"] },
          updateFlag := false } "now").2.1).thread.messages =
      [MessageFrame.mkDefault "t0"]) ∧
    (((ChatWriter.flush
        { userMessage := some (BaseMessage.mkDefault "t0"), aiMessage := none,
          threadId := some "th" }
        { thread := { id := some "old", messages := [MessageFrame.mkDefault "t0"] },
          updateFlag := false } "now").2.1).updateFlag = false) :=
  ⟨rfl,
   (flush_one_sided
      { userMessage := some (BaseMessage.mkDefault "t0"), aiMessage := none,
        threadId := some "th" }
      { thread := { id := some "old", messages := [MessageFrame.mkDefault "t0"] },
        updateFlag := false } "now" rfl).1,
   (flush_one_sided
      { userMessage := some (BaseMessage.mkDefault "t0"), aiMessage := none,
        threadId := some "th" }
      { thread := { id := some "old", messages := [MessageFrame.mkDefault "t0"] },
        updateFlag := false } "now" rfl).2.1,
   (flush_one_sided
      { userMessage := some (BaseMessage.mkDefault "t0"), aiMessage := none,
        threadId := some "th" }
      { thread := { id := some "old", messages := [MessageFrame.mkDefault "t0"] },
        updateFlag := false } "now" rfl).2.2.1⟩

/-! ## Theorems about client.rs -/

theorem decodeChunk_append (pfx body : List Char) (h : pfx.length = 6) :
    decodeChunk (pfx ++ body) = decodeBody body := by
  have hd : (pfx ++ body).drop 6 = body := by
    rw [← h]; exact List.drop_left pfx body
  have hne : (pfx ++ body).isEmpty = false := by
    cases pfx with
    | nil => simp at h
    | cons a l => simp
  have hguard : ((pfx ++ body).isEmpty || decide ((pfx ++ body).length < 6)) = false := by
    simp only [hne, Bool.false_or, decide_eq_false_iff_not, List.length_append, h]
    omega
  unfold decodeChunk
  rw [hguard]
  simp [hd]

/-- C2: with any fixed 6-byte prefix on each chunk, the input chunk
sequence consisting of the quoted text envelope and then the sentinel
chunk makes the decoder of `ChatClient::chat_stream` yield exactly one
`Text("hi")` item and then terminate with no further items. -/
theorem chat_stream_text_done_example (pfx : List Char) (h : pfx.length = 6) :
    decodeStream [.ok (pfx ++ textChunkBody), .ok (pfx ++ doneSuffix)] =
      [.ok (ChatResponse.text "hi")] := by
  have e1 : decodeBody textChunkBody = ChunkStep.yield (ChatResponse.text "hi") := by decide
  have e2 : decodeBody doneSuffix = ChunkStep.stop := by decide
  simp only [decodeStream, decodeChunk_append pfx textChunkBody h,
    decodeChunk_append pfx doneSuffix h, e1, e2]

theorem chat_stream_text_done_example_witness :
    (("data: ".data).length = 6) ∧
    (decodeStream [.ok ("data: ".data ++ textChunkBody), .ok ("data: ".data ++ doneSuffix)] =
      [.ok (ChatResponse.text "hi")]) :=
  ⟨by decide, chat_stream_text_done_example ("data: ".data) (by decide)⟩

theorem decodeChunk_of_terminal (item : List Char) (h : isTerminalChunk item = true) :
    decodeChunk item = .stop := by
  by_cases hg : (item.isEmpty || decide (item.length < 6)) = true
  · unfold decodeChunk
    rw [hg]
    simp
  · simp only [Bool.not_eq_true] at hg
    have hc : eqIgnoreAsciiCase (item.drop 6) doneSuffix = true := by
      simp only [isTerminalChunk, Bool.or_eq_true] at h
      rcases h with (h | h) | h
      · simp [h] at hg
      · simp [h] at hg
      · exact h
    unfold decodeChunk
    rw [hg]
    simp [decodeBody, hc]

theorem decodeStream_append_good (pre rest : List (Except Unit (List Char)))
    (h : ∀ x ∈ pre, goodChunk x = true) :
    decodeStream (pre ++ rest) = pre.filterMap chunkEvent ++ decodeStream rest := by
  induction pre with
  | nil => simp
  | cons c pre ih =>
    have hc : goodChunk c = true := h c (by simp)
    have hrest : ∀ x ∈ pre, goodChunk x = true := fun x hx => h x (by simp [hx])
    cases c with
    | error e => simp [goodChunk] at hc
    | ok item =>
      cases hd : decodeChunk item with
      | stop => simp [goodChunk, hd] at hc
      | fail e => simp [goodChunk, hd] at hc
      | yield r =>
        simp only [List.cons_append, decodeStream, hd, List.filterMap_cons, chunkEvent]
        simp [ih hrest]

theorem decodeStream_errors_last (chunks : List (Except Unit (List Char))) :
    ((decodeStream chunks).dropLast).all Except.isOk = true := by
  induction chunks with
  | nil => simp [decodeStream]
  | cons c rest ih =>
    cases c with
    | error e => simp [decodeStream]
    | ok item =>
      cases hd : decodeChunk item with
      | stop => simp [decodeStream, hd]
      | fail e => simp [decodeStream, hd]
      | yield r =>
        simp only [decodeStream, hd]
        cases hrest : decodeStream rest with
        | nil => simp
        | cons y ys =>
          rw [hrest] at ih
          simp only [List.dropLast_cons₂, List.all_cons, ih, Bool.and_true]
          rfl

/-- C3: the decoder stream of `chat_stream` stops at a terminal chunk
(empty, shorter than the 6-byte prefix, or body case-insensitively
equal to the sentinel) — later transport chunks contribute nothing —
likewise stops at a transport error, ends when the transport closes,
and never yields an item after a termination or error: every item
before the last one is an `ok` response. -/
theorem chat_stream_no_event_after_stop :
    (∀ pre (item : List Char) post, (∀ x ∈ pre, goodChunk x = true) →
      isTerminalChunk item = true →
      decodeStream (pre ++ .ok item :: post) = decodeStream (pre ++ [.ok item])) ∧
    (∀ pre (e : Unit) post, (∀ x ∈ pre, goodChunk x = true) →
      decodeStream (pre ++ .error e :: post) = decodeStream (pre ++ [.error e])) ∧
    (decodeStream [] = []) ∧
    (∀ chunks, ((decodeStream chunks).dropLast).all Except.isOk = true) := by
  refine ⟨?_, ?_, rfl, decodeStream_errors_last⟩
  · intro pre item post hpre hterm
    rw [decodeStream_append_good pre _ hpre, decodeStream_append_good pre _ hpre]
    have hstop := decodeChunk_of_terminal item hterm
    simp [decodeStream, hstop]
  · intro pre e post hpre
    rw [decodeStream_append_good pre _ hpre, decodeStream_append_good pre _ hpre]
    simp [decodeStream]

theorem chat_stream_no_event_after_stop_witness :
    (goodChunk (.ok ("data: ".data ++ textChunkBody)) = true) ∧
    (isTerminalChunk ("hi".data) = true) ∧
    (decodeStream [.ok ("data: ".data ++ textChunkBody), .ok ("hi".data),
        .ok ("data: ".data ++ textChunkBody)] =
      decodeStream [.ok ("data: ".data ++ textChunkBody), .ok ("hi".data)]) :=
  ⟨by decide, by decide,
   chat_stream_no_event_after_stop.1 [.ok ("data: ".data ++ textChunkBody)] ("hi".data)
     [.ok ("data: ".data ++ textChunkBody)]
     (by intro x hx; simp at hx; subst hx; decide) (by decide)⟩

/-! ## Theorems about host.rs -/

theorem bus_truncated_json_no_error_event :
    parseHostMessage truncBusContents = none ∧
    listenStep false (.contents truncBusContents) = none := by
  constructor
  · decide
  · decide

/-- C4 amended: when the bus file's contents fail to parse as a JSON
status record, the watcher delivers no event at all for that
modification (it stays silent rather than sending an error event) and
keeps running, so a subsequent modification whose contents parse as
valid JSON delivers a normal `BusMessage`; only a failed `read` call
produces the error event. -/
theorem bus_parse_failure_silent (bad good : List Char) (m : HostMessage)
    (rest : List (Bool × FileReadResult))
    (hbad : parseHostMessage (busBytesRead bad) = none)
    (hgood : parseHostMessage (busBytesRead good) = some m)
    (hne : good ≠ []) :
    listenStep false (.contents bad) = none ∧
    FileWatcher.listen ((false, .contents bad) :: (false, .contents good) :: rest) =
      .busMessage m :: FileWatcher.listen rest ∧
    listenStep false .readFailed = some (.error "Failed to read host message") := by
  have hbadstep : listenStep false (.contents bad) = none := by
    by_cases hl : (busBytesRead bad).length > 0
    · simp [listenStep, hl, hbad]
    · simp [listenStep, hl]
  have hglen : (busBytesRead good).length > 0 := by
    have : good.length > 0 := List.length_pos.mpr hne
    simp [busBytesRead, busBufSize]
    omega
  have hgoodstep : listenStep false (.contents good) = some (.busMessage m) := by
    simp [listenStep, hglen, hgood]
  refine ⟨hbadstep, ?_, rfl⟩
  unfold FileWatcher.listen
  simp [List.filterMap_cons, hbadstep, hgoodstep]

theorem bus_parse_failure_silent_witness :
    (parseHostMessage (busBytesRead truncBusContents) = none) ∧
    (parseHostMessage (busBytesRead validBusContents) =
      some { timestamp := "t",
             status := { state := "ok", lastError := none, errorCode := none },
             server := none }) ∧
    (FileWatcher.listen [(false, .contents truncBusContents), (false, .contents validBusContents)] =
      [.busMessage { timestamp := "t",
                     status := { state := "ok", lastError := none, errorCode := none },
                     server := none }]) :=
  ⟨by decide, by decide,
   (bus_parse_failure_silent truncBusContents validBusContents
      { timestamp := "t",
        status := { state := "ok", lastError := none, errorCode := none },
        server := none }
      [] (by decide) (by decide) (by decide)).2.1⟩

theorem bus_full_read_counterexample :
    oversizedBusContents.length = 2000 ∧
    busBytesRead oversizedBusContents ≠ oversizedBusContents := by
  constructor
  · unfold oversizedBusContents
    exact List.length_replicate 2000 'a'
  · intro hcontra
    have hlen := congrArg List.length hcontra
    unfold busBytesRead busBufSize oversizedBusContents at hlen
    rw [List.length_take, List.length_replicate] at hlen
    omega

/-- C5 amended: on each modification event of the bus file
(directory-level events ignored), the watcher reads at most the first
1024 bytes of the file's contents — not the full contents when the
file is larger — parses those bytes as one JSON status record, and
forwards a `BusMessage` event on parse success. -/
theorem bus_reads_first_kilobyte (cs : List Char) (m : HostMessage)
    (hne : cs ≠ []) (h : parseHostMessage (cs.take 1024) = some m) :
    busBytesRead cs = cs.take 1024 ∧
    listenStep false (.contents cs) = some (.busMessage m) ∧
    listenStep true (.contents cs) = none := by
  have hlen : (busBytesRead cs).length > 0 := by
    have : cs.length > 0 := List.length_pos.mpr hne
    simp [busBytesRead, busBufSize]
    omega
  have h' : parseHostMessage (busBytesRead cs) = some m := h
  refine ⟨rfl, ?_, by simp [listenStep]⟩
  simp [listenStep, hlen, h']

theorem bus_reads_first_kilobyte_witness :
    (validBusContents ≠ []) ∧
    (parseHostMessage (validBusContents.take 1024) =
      some { timestamp := "t",
             status := { state := "ok", lastError := none, errorCode := none },
             server := none }) ∧
    (listenStep false (.contents validBusContents) =
      some (.busMessage { timestamp := "t",
                          status := { state := "ok", lastError := none, errorCode := none },
                          server := none })) :=
  ⟨by decide, by decide,
   (bus_reads_first_kilobyte validBusContents
      { timestamp := "t",
        status := { state := "ok", lastError := none, errorCode := none },
        server := none }
      (by decide) (by decide)).2.1⟩

theorem create_preserves (path content : String) (fs : FileSys) (p c : String)
    (h : fs p = some c) :
    create_file_if_not_exists path content fs p = some c := by
  unfold create_file_if_not_exists
  by_cases hp : p = path
  · subst hp
    simp [h]
  · simp [hp, h]

theorem create_creates (path content : String) (fs : FileSys)
    (h : fs path = none) :
    create_file_if_not_exists path content fs path = some content := by
  unfold create_file_if_not_exists
  simp [h]

theorem create_other (path content : String) (fs : FileSys) (p : String)
    (h : p ≠ path) :
    create_file_if_not_exists path content fs p = fs p := by
  unfold create_file_if_not_exists
  simp [h]

theorem create_absent (path content : String) (fs : FileSys) (p : String)
    (h1 : p ≠ path) (h2 : fs p = none) :
    create_file_if_not_exists path content fs p = none :=
  (create_other path content fs p h1).trans h2

theorem create_none_inv (path content : String) (fs : FileSys) (p : String)
    (h : create_file_if_not_exists path content fs p = none) :
    p ≠ path ∧ fs p = none := by
  unfold create_file_if_not_exists at h
  by_cases hp : p = path
  · subst hp
    cases hfs : fs p with
    | some e => simp [hfs] at h
    | none => simp [hfs] at h
  · refine ⟨hp, ?_⟩
    simpa [hp] using h

theorem pathJoin_ne (dir : String) (a b : String) (h : a ≠ b) :
    pathJoin dir a ≠ pathJoin dir b := by
  intro heq
  apply h
  unfold pathJoin at heq
  have hd := congrArg String.data heq
  simp only [String.data_append, List.append_assoc] at hd
  exact String.ext (List.append_cancel_left (List.append_cancel_left hd))

theorem init_none_of (configDir dbDir : String) (fs : FileSys) (p : String)
    (h5 : p ≠ pathJoin configDir "dive_httpd.json")
    (h4 : p ≠ pathJoin configDir MODEL_CONFIG_FILE)
    (h3 : p ≠ pathJoin configDir MCP_CONFIG_FILE)
    (h2 : p ≠ pathJoin configDir CUSTOM_RULES_FILE)
    (h1 : p ≠ pathJoin configDir COMMAND_ALIAS_FILE)
    (h : fs p = none) :
    init_host_config configDir dbDir fs p = none := by
  unfold init_host_config
  rw [create_other _ _ _ _ h5, create_other _ _ _ _ h4, create_other _ _ _ _ h3,
    create_other _ _ _ _ h2, create_other _ _ _ _ h1]
  exact h

/-- C6: initialization creates each config file of the fixed default
set with its literal default contents only when the file is absent; a
file that already exists keeps its contents unchanged, whatever they
are, and running initialization a second time changes nothing at
all. -/
theorem init_host_config_no_clobber (configDir dbDir : String) (fs : FileSys) :
    (∀ p c, fs p = some c → init_host_config configDir dbDir fs p = some c) ∧
    (fs (pathJoin configDir COMMAND_ALIAS_FILE) = none →
      init_host_config configDir dbDir fs (pathJoin configDir COMMAND_ALIAS_FILE) =
        some "\x7b\x7d") ∧
    (fs (pathJoin configDir CUSTOM_RULES_FILE) = none →
      init_host_config configDir dbDir fs (pathJoin configDir CUSTOM_RULES_FILE) =
        some "") ∧
    (fs (pathJoin configDir MCP_CONFIG_FILE) = none →
      init_host_config configDir dbDir fs (pathJoin configDir MCP_CONFIG_FILE) =
        some MCP_CONFIG_CONTENT) ∧
    (fs (pathJoin configDir MODEL_CONFIG_FILE) = none →
      init_host_config configDir dbDir fs (pathJoin configDir MODEL_CONFIG_FILE) =
        some MODEL_CONFIG_CONTENT) ∧
    (fs (pathJoin configDir "dive_httpd.json") = none →
      init_host_config configDir dbDir fs (pathJoin configDir "dive_httpd.json") =
        some (diveHttpdContent dbDir)) ∧
    (∀ p, init_host_config configDir dbDir (init_host_config configDir dbDir fs) p =
      init_host_config configDir dbDir fs p) := by
  have hpres : ∀ (g : FileSys) p c, g p = some c →
      init_host_config configDir dbDir g p = some c := by
    intro g p c hp
    unfold init_host_config
    apply create_preserves
    apply create_preserves
    apply create_preserves
    apply create_preserves
    apply create_preserves
    exact hp
  refine ⟨hpres fs, ?_, ?_, ?_, ?_, ?_, ?_⟩
  · intro h
    unfold init_host_config
    apply create_preserves
    apply create_preserves
    apply create_preserves
    apply create_preserves
    exact create_creates _ _ _ h
  · intro h
    unfold init_host_config
    apply create_preserves
    apply create_preserves
    apply create_preserves
    apply create_creates
    apply create_absent
    · exact pathJoin_ne configDir _ _ (by decide)
    · exact h
  · intro h
    unfold init_host_config
    apply create_preserves
    apply create_preserves
    apply create_creates
    apply create_absent
    · exact pathJoin_ne configDir _ _ (by decide)
    apply create_absent
    · exact pathJoin_ne configDir _ _ (by decide)
    · exact h
  · intro h
    unfold init_host_config
    apply create_preserves
    apply create_creates
    apply create_absent
    · exact pathJoin_ne configDir _ _ (by decide)
    apply create_absent
    · exact pathJoin_ne configDir _ _ (by decide)
    apply create_absent
    · exact pathJoin_ne configDir _ _ (by decide)
    · exact h
  · intro h
    unfold init_host_config
    apply create_creates
    apply create_absent
    · exact pathJoin_ne configDir _ _ (by decide)
    apply create_absent
    · exact pathJoin_ne configDir _ _ (by decide)
    apply create_absent
    · exact pathJoin_ne configDir _ _ (by decide)
    apply create_absent
    · exact pathJoin_ne configDir _ _ (by decide)
    · exact h
  · intro p
    cases hgp : init_host_config configDir dbDir fs p with
    | some c => exact hpres _ p c hgp
    | none =>
      obtain ⟨hne5, h4⟩ := create_none_inv _ _ _ _ hgp
      obtain ⟨hne4, h3⟩ := create_none_inv _ _ _ _ h4
      obtain ⟨hne3, h2⟩ := create_none_inv _ _ _ _ h3
      obtain ⟨hne2, h1⟩ := create_none_inv _ _ _ _ h2
      obtain ⟨hne1, _⟩ := create_none_inv _ _ _ _ h1
      exact init_none_of configDir dbDir _ p hne5 hne4 hne3 hne2 hne1 hgp

theorem init_host_config_no_clobber_witness :
    (witnessFs (pathJoin "cfg" COMMAND_ALIAS_FILE) = some "user-edited") ∧
    (init_host_config "cfg" "db" witnessFs (pathJoin "cfg" COMMAND_ALIAS_FILE) =
      some "user-edited") ∧
    (witnessFs (pathJoin "cfg" MCP_CONFIG_FILE) = none) ∧
    (init_host_config "cfg" "db" witnessFs (pathJoin "cfg" MCP_CONFIG_FILE) =
      some MCP_CONFIG_CONTENT) :=
  ⟨by decide,
   (init_host_config_no_clobber "cfg" "db" witnessFs).1 _ _ (by decide),
   by decide,
   (init_host_config_no_clobber "cfg" "db" witnessFs).2.2.2.1 (by decide)⟩

/-! ## Theorems about the readiness probe and main -/

/-- C7: when every liveness attempt that completes before the overall
deadline fails, `wait_for_server` returns the `"timeout"` error, and
because `main` awaits it with `?` before its chat loop, the session
propagates that error and issues no chat request at all. -/
theorem wait_for_server_timeout_no_chat (pings : List Bool) (actions : List UIAction)
    (h : ∀ p ∈ pings, p = false) :
    wait_for_server pings = .error "timeout" ∧
    sessionChats pings actions = .error "timeout" := by
  have hany : pings.any (fun b => b) = false := by
    cases hp : pings.any (fun b => b) with
    | false => rfl
    | true =>
      obtain ⟨x, hx, hpx⟩ := List.any_eq_true.mp hp
      have := h x hx
      simp [this] at hpx
  constructor
  · simp [wait_for_server, hany]
  · simp [sessionChats, wait_for_server, hany]

theorem wait_for_server_timeout_no_chat_witness :
    (wait_for_server [false, false] = .error "timeout") ∧
    (sessionChats [false, false] [UIAction.chat none "hi"] = .error "timeout") :=
  wait_for_server_timeout_no_chat [false, false] [UIAction.chat none "hi"] (by decide)
